import Mathlib

/-!
Verification of the asn1tools top-level module (asn1tools/__init__.py):
the command-line front-end (subcommands, codec choices, error flow of the
convert/parse/pickle subcommands, specification loading) and the
UTCTime/GeneralizedTime string conversion helpers.
-/

deriving instance DecidableEq for Except

namespace Asn1tools

/-! ## Codec choice sets of the command-line front-end

Each list embeds one argparse `choices=(...)` tuple from the source, in
source order. -/

/-- The codec set named by the spec: `codec ∈ \x7bber, der, per, uper, xer, jer, gser\x7d`. -/
def library_codecs : List String :=
  ["ber", "der", "per", "uper", "xer", "jer", "gser"]

/-- `choices` of `convert --input-codec` in `_main`. -/
def convert_input_codec_choices : List String :=
  ["ber", "der", "jer", "per", "uper", "xer"]

/-- `choices` of `convert --output-codec` in `_main`. -/
def convert_output_codec_choices : List String :=
  ["ber", "der", "jer", "per", "uper", "xer", "gser"]

/-- `choices` of `pickle --codec` in `_main`. -/
def pickle_codec_choices : List String :=
  ["ber", "der", "jer", "per", "uper", "xer", "gser"]

/-- `default` of `pickle --codec` in `_main`. -/
def pickle_codec_default : String := "ber"

/-- `choices` of the shell compile command option `-i` in `_handle_command_compile`. -/
def shell_compile_input_codec_choices : List String :=
  ["ber", "der", "jer", "per", "uper", "xer"]

/-- `choices` of the shell compile command option `-o` in `_handle_command_compile`. -/
def shell_compile_output_codec_choices : List String :=
  ["ber", "der", "jer", "per", "uper", "xer", "gser"]

/-! ## Subcommand dispatch of `_main`

`_main` registers exactly the subparsers convert, shell, parse and pickle,
and marks the subparser group required.  `parse_subcommand` is the
semantics of that configuration: `none` models an invocation without a
subcommand, `some n` an invocation naming subcommand `n`. -/

inductive Subcommand
  | convert
  | shell
  | parseCmd
  | pickleCmd
deriving DecidableEq

/-- Names accepted by the subparser group registered in `_main`. -/
def subcommand_names : List String := ["convert", "shell", "parse", "pickle"]

/-- Argparse resolution of the subcommand argument of `_main`:
a missing subcommand is rejected (`subparsers.required = True`), an unknown
name is rejected as an invalid choice. -/
def parse_subcommand : Option String → Except String Subcommand
  | none => .error "the following arguments are required: subcommand"
  | some n =>
    if n = "convert" then .ok .convert
    else if n = "shell" then .ok .shell
    else if n = "parse" then .ok .parseCmd
    else if n = "pickle" then .ok .pickleCmd
    else .error ("invalid choice: " ++ n)

/-! ## Exception flow of the convert subcommand

`_main` runs `args.func(args)`; an exception escaping it terminates the
process with a nonzero status (`sys.exit('error: ...')`, or an uncaught
traceback under `--debug`).  Inside `_do_convert` with hexstring `-`, each
nonempty stdin line is converted under `except TypeError` and
`except DecodeError` handlers that print and continue the loop; every
other exception escapes.  `PyExc` models the exceptions that can be
raised, `Option PyExc` the outcome of one operation (`none` = no
exception). -/

inductive PyExc
  | parseError
  | compileError
  | constraintsError
  | encodeError
  | decodeError
  | typeError
  | otherError
deriving DecidableEq

/-- The five core error classes of the claim (ParseError, CompileError,
ConstraintsError, EncodeError, DecodeError). -/
def PyExc.isCore : PyExc → Bool
  | .parseError => true
  | .compileError => true
  | .constraintsError => true
  | .encodeError => true
  | .decodeError => true
  | .typeError => false
  | .otherError => false

/-- The handlers of the stdin loop in `_do_convert`:
`except TypeError` and `except DecodeError`. -/
def caught_in_stdin_loop : PyExc → Bool
  | .typeError => true
  | .decodeError => true
  | _ => false

/-- The stdin loop of `_do_convert` (hexstring `-`): each entry is the
outcome of `_convert_hexstring` on one line; a caught exception is printed
and the loop continues; the first uncaught exception escapes. -/
def convert_stdin_loop : List (Option PyExc) → Option PyExc
  | [] => none
  | none :: rest => convert_stdin_loop rest
  | some e :: rest =>
    if caught_in_stdin_loop e then convert_stdin_loop rest else some e

/-- Outcome of `_do_convert`: `compileOutcome` is the outcome of
`_compile_files` (run first, outside any handler); in `-` mode the stdin
loop runs, otherwise a single `_convert_hexstring` call with outcome
`single`. -/
def do_convert_outcome (compileOutcome : Option PyExc) (dash : Bool)
    (lineOutcomes : List (Option PyExc)) (single : Option PyExc) : Option PyExc :=
  match compileOutcome with
  | some e => some e
  | none => if dash then convert_stdin_loop lineOutcomes else single

/-- Exit status of `_main` as a function of the outcome of `args.func(args)`:
no exception exits 0, any escaping exception exits nonzero (1). -/
def main_exit_code : Option PyExc → Nat
  | none => 0
  | some _ => 1

/-! ## Specification loading of the convert subcommand (`_compile_files`) -/

/-- Python `spec.endswith(".py")` on code points. -/
def pyFileB (s : String) : Bool := ".py".data.isSuffixOf s.data

/-- Python `spec.endswith(".pkl")` on code points. -/
def pklFileB (s : String) : Bool := ".pkl".data.isSuffixOf s.data

/-- The three source forms `_compile_files` dispatches to. -/
inductive CompileAction
  | importPy (file : String)
  | loadPkl (input output : String)
  | parseAsn (files : List String)
deriving DecidableEq

/-- The dispatch of `_compile_files specs input_codec output_codec`:
counts the file names ending in `.py` and in `.pkl`; a positive `.py`
count requires exactly one such name and imports `specs[0]` (compiling its
SPECIFICATION dict for both codecs); otherwise a positive `.pkl` count
requires exactly two such names and unpickles `specs[0]` and `specs[1]`;
otherwise all files are parsed as ASN.1 text and compiled for both
codecs. -/
def compile_files_dispatch (specs : List String) : Except String CompileAction :=
  let py_count := specs.countP pyFileB
  let pkl_count := specs.countP pklFileB
  if 0 < py_count then
    if py_count ≠ 1 then
      .error ("Expected one .py-file, but got " ++ toString py_count ++ ".")
    else
      match specs.head? with
      | some f => .ok (.importPy f)
      | none => .error "list index out of range"
  else if 0 < pkl_count then
    if pkl_count ≠ 2 then
      .error ("Expected two .pkl-files, but got " ++ toString pkl_count ++ ".")
    else
      match specs with
      | f1 :: f2 :: _ => .ok (.loadPkl f1 f2)
      | _ => .error "list index out of range"
  else .ok (.parseAsn specs)

/-! ## The parse subcommand and the convert `.py` path

`_do_parse` writes `SPECIFICATION = ` followed by `pformat(parse_files(specs))`
to the output file; the `.py` branch of `_compile_files` imports such a
file and compiles the SPECIFICATION dict for both codecs. -/

/-- Modelled from the spec: `parse(sources) → dict` is the pre-parsed
module map, which is stable and serializable; `pformat` is its
pretty-printed text and `eval_expr` is the evaluation, on import of the
written `.py` file, of that text back to the dictionary value;
`compile_dict` compiles the dictionary for one codec.  `parse_files`,
`pformat`, import execution and `compile_dict` live outside this module.
The `eval_pformat` field is the stability contract of the spec. -/
structure ParsePipeline (D S : Type) where
  parse_files : List String → D
  pformat : D → String
  eval_expr : String → Option D
  compile_dict : D → String → S
  eval_pformat : ∀ d, eval_expr (pformat d) = some d

/-- Content `_do_parse` writes to the output file. -/
def do_parse_output {D S : Type} (P : ParsePipeline D S) (files : List String) : String :=
  "SPECIFICATION = " ++ P.pformat (P.parse_files files)

/-- Importing the written `.py` file and reading `module.SPECIFICATION`:
the file holds the single assignment `SPECIFICATION = <expression>`, whose
execution binds SPECIFICATION to the value of the expression text. -/
def import_SPECIFICATION {D S : Type} (P : ParsePipeline D S) (content : String) : Option D :=
  if "SPECIFICATION = ".data.isPrefixOf content.data then
    P.eval_expr ⟨content.data.drop 16⟩
  else
    none

/-- The `.py` branch of `_compile_files` on a file with the given content:
`compile_dict(module.SPECIFICATION, input_codec)` and
`compile_dict(module.SPECIFICATION, output_codec)`. -/
def compile_py_content {D S : Type} (P : ParsePipeline D S)
    (content : String) (input_codec output_codec : String) : Option (S × S) :=
  (import_SPECIFICATION P content).map
    (fun d => (P.compile_dict d input_codec, P.compile_dict d output_codec))

/-! ## The pickle subcommand and the convert `.pkl` path -/

/-- Modelled from the spec: `compile(sources, codec) → CompiledSpec` for one
codec, and the serialization of a compiled codec-specific spec to a binary
blob with its deserialization; `compile_files`, `pickle.dump` and
`pickle.load` live outside this module.  The `loads_dumps` field is the
round-trip contract of the serialized blob. -/
structure PicklePipeline (S : Type) where
  compile_files : List String → String → S
  dumps : S → List Nat
  loads : List Nat → Option S
  loads_dumps : ∀ s, loads (dumps s) = some s

/-- `_do_pickle`: compile the specification files for the single codec
`args.codec` and serialize the compiled spec to one binary blob. -/
def do_pickle {S : Type} (P : PicklePipeline S) (specs : List String)
    (codec : String) : List Nat :=
  P.dumps (P.compile_files specs codec)

/-- One `pickle.load` of the `.pkl` branch of `_compile_files`. -/
def convert_load_pkl {S : Type} (P : PicklePipeline S) (blob : List Nat) : Option S :=
  P.loads blob

/-! ## Datetime model for the time conversion helpers

`Datetime` embeds the fields of `datetime.datetime` used by the helpers;
`tz` is the tzinfo: `none` for a naive datetime, `some k` for a fixed
timezone of `k` minutes offset (`some 0` is UTC). -/

structure Datetime where
  year : Nat
  month : Nat
  day : Nat
  hour : Nat
  minute : Nat
  second : Nat
  microsecond : Nat
  tz : Option Int
deriving DecidableEq

/-- Gregorian leap year, as the datetime module computes it. -/
def isLeapYear (y : Nat) : Bool :=
  y % 4 == 0 && (y % 100 != 0 || y % 400 == 0)

/-- Days in a month, as the datetime constructor validates the day. -/
def daysInMonth (y m : Nat) : Nat :=
  if m = 2 then (if isLeapYear y then 29 else 28)
  else if m = 4 ∨ m = 6 ∨ m = 9 ∨ m = 11 then 30
  else 31

/-- Field ranges the `datetime.datetime` constructor accepts (together with
the strptime field patterns they are exactly these bounds). -/
@[reducible] def Datetime.Valid (d : Datetime) : Prop :=
  1 ≤ d.year ∧ d.year ≤ 9999 ∧ 1 ≤ d.month ∧ d.month ≤ 12 ∧
  1 ≤ d.day ∧ d.day ≤ daysInMonth d.year d.month ∧
  d.hour ≤ 23 ∧ d.minute ≤ 59 ∧ d.second ≤ 59 ∧ d.microsecond ≤ 999999

/-- The `datetime.datetime` constructor: `none` is the ValueError raised on
an out-of-range field. -/
def mkDatetime? (y mo dd hh mi ss us : Nat) (tz : Option Int) : Option Datetime :=
  let d : Datetime := ⟨y, mo, dd, hh, mi, ss, us, tz⟩
  if d.Valid then some d else none

/-- Value of a decimal digit character. -/
def digit? (c : Char) : Option Nat :=
  if c.isDigit then some (c.toNat - 48) else none

/-- Two-digit decimal field. -/
def parse2 (c1 c2 : Char) : Option Nat := do
  let a ← digit? c1
  let b ← digit? c2
  pure (10 * a + b)

/-- Four-digit decimal field (strptime `%Y`). -/
def parse4 (c1 c2 c3 c4 : Char) : Option Nat := do
  let a ← parse2 c1 c2
  let b ← parse2 c3 c4
  pure (100 * a + b)

/-- Century pivot of strptime `%y`: 0..68 map to 2000..2068 and
69..99 map to 1969..1999. -/
def pivotYY (yy : Nat) : Nat := if yy ≤ 68 then 2000 + yy else 1900 + yy

/-- strptime `%z` of a five-character offset `±HHMM`: the offset in
minutes, rejected when outside the range the timezone class accepts
(at most 23 hours 59 minutes from UTC). -/
def parseTzOffset (sign h1 h2 m1 m2 : Char) : Option Int := do
  let hh ← parse2 h1 h2
  let mm ← parse2 m1 m2
  let total := 60 * hh + mm
  if total ≤ 1439 then
    if sign = '+' then pure (total : Int)
    else if sign = '-' then pure (-(total : Int))
    else none
  else none

/-- Decimal value of a digit list (most significant first). -/
def digitsVal : List Char → Option Nat
  | [] => some 0
  | c :: cs => do
    let d ← digit? c
    let rest ← digitsVal cs
    pure (d * 10 ^ cs.length + rest)

/-- strptime `%f`: one to six fraction digits, scaled to microseconds by
padding with zeros on the right. -/
def parseFrac (cs : List Char) : Option Nat :=
  if 1 ≤ cs.length ∧ cs.length ≤ 6 then
    (digitsVal cs).map (fun n => n * 10 ^ (6 - cs.length))
  else
    none

/-!
The strptime models below follow CPython `datetime.strptime` restricted to
the zero-padded field widths that strftime emits.  At the fixed string
lengths at which the helpers apply each format, a full match forces every
numeric field to its padded width, except that strptime also tolerates
some one-digit month/day/hour/minute/second fields in combination with
longer `%z`/`%f` matches; those exotic matches only move inputs between
the parsed and the ValueError outcome of the same format, which no claim
distinguishes. -/

/-- `datetime.strptime(s, "%y%m%d%H%M")`. -/
def strptime_yymmddHHMM (s : String) : Option Datetime :=
  match s.data with
  | [y1, y2, o1, o2, a1, a2, h1, h2, n1, n2] => do
    let yy ← parse2 y1 y2
    let mo ← parse2 o1 o2
    let dd ← parse2 a1 a2
    let hh ← parse2 h1 h2
    let mi ← parse2 n1 n2
    mkDatetime? (pivotYY yy) mo dd hh mi 0 0 none
  | _ => none

/-- `datetime.strptime(s, "%y%m%d%H%M%S")`. -/
def strptime_yymmddHHMMSS (s : String) : Option Datetime :=
  match s.data with
  | [y1, y2, o1, o2, a1, a2, h1, h2, n1, n2, s1, s2] => do
    let yy ← parse2 y1 y2
    let mo ← parse2 o1 o2
    let dd ← parse2 a1 a2
    let hh ← parse2 h1 h2
    let mi ← parse2 n1 n2
    let ss ← parse2 s1 s2
    mkDatetime? (pivotYY yy) mo dd hh mi ss 0 none
  | _ => none

/-- `strptime(s, "%y%m%d%H%M%z")` (the module-level wrapper equals
`datetime.strptime` on Python 3). -/
def strptime_yymmddHHMMz (s : String) : Option Datetime :=
  match s.data with
  | [y1, y2, o1, o2, a1, a2, h1, h2, n1, n2, zs, z1, z2, z3, z4] => do
    let yy ← parse2 y1 y2
    let mo ← parse2 o1 o2
    let dd ← parse2 a1 a2
    let hh ← parse2 h1 h2
    let mi ← parse2 n1 n2
    let off ← parseTzOffset zs z1 z2 z3 z4
    mkDatetime? (pivotYY yy) mo dd hh mi 0 0 (some off)
  | _ => none

/-- `strptime(s, "%y%m%d%H%M%S%z")`. -/
def strptime_yymmddHHMMSSz (s : String) : Option Datetime :=
  match s.data with
  | [y1, y2, o1, o2, a1, a2, h1, h2, n1, n2, s1, s2, zs, z1, z2, z3, z4] => do
    let yy ← parse2 y1 y2
    let mo ← parse2 o1 o2
    let dd ← parse2 a1 a2
    let hh ← parse2 h1 h2
    let mi ← parse2 n1 n2
    let ss ← parse2 s1 s2
    let off ← parseTzOffset zs z1 z2 z3 z4
    mkDatetime? (pivotYY yy) mo dd hh mi ss 0 (some off)
  | _ => none

/-- `datetime.strptime(s, "%Y%m%d%H%M%S")`. -/
def strptime_YmdHMS (s : String) : Option Datetime :=
  match s.data with
  | [y1, y2, y3, y4, o1, o2, a1, a2, h1, h2, n1, n2, s1, s2] => do
    let yyyy ← parse4 y1 y2 y3 y4
    let mo ← parse2 o1 o2
    let dd ← parse2 a1 a2
    let hh ← parse2 h1 h2
    let mi ← parse2 n1 n2
    let ss ← parse2 s1 s2
    mkDatetime? yyyy mo dd hh mi ss 0 none
  | _ => none

/-- `datetime.strptime(s, "%Y%m%d%H%M%S.%f")`. -/
def strptime_YmdHMSf (s : String) : Option Datetime :=
  match s.data with
  | y1 :: y2 :: y3 :: y4 :: o1 :: o2 :: a1 :: a2 :: h1 :: h2 :: n1 :: n2 :: s1 :: s2 :: '.' :: fracs => do
    let yyyy ← parse4 y1 y2 y3 y4
    let mo ← parse2 o1 o2
    let dd ← parse2 a1 a2
    let hh ← parse2 h1 h2
    let mi ← parse2 n1 n2
    let ss ← parse2 s1 s2
    let us ← parseFrac fracs
    mkDatetime? yyyy mo dd hh mi ss us none
  | _ => none

/-- `strptime(s, "%Y%m%d%H%M%S%z")`. -/
def strptime_YmdHMSz (s : String) : Option Datetime :=
  match s.data with
  | [y1, y2, y3, y4, o1, o2, a1, a2, h1, h2, n1, n2, s1, s2, zs, z1, z2, z3, z4] => do
    let yyyy ← parse4 y1 y2 y3 y4
    let mo ← parse2 o1 o2
    let dd ← parse2 a1 a2
    let hh ← parse2 h1 h2
    let mi ← parse2 n1 n2
    let ss ← parse2 s1 s2
    let off ← parseTzOffset zs z1 z2 z3 z4
    mkDatetime? yyyy mo dd hh mi ss 0 (some off)
  | _ => none

/-- `strptime(s, "%Y%m%d%H%M%S.%f%z")`: fraction digits up to the final
five-character offset. -/
def strptime_YmdHMSfz (s : String) : Option Datetime :=
  match s.data with
  | y1 :: y2 :: y3 :: y4 :: o1 :: o2 :: a1 :: a2 :: h1 :: h2 :: n1 :: n2 :: s1 :: s2 :: '.' :: rest =>
    if 5 < rest.length then
      match rest.drop (rest.length - 5) with
      | [zs, z1, z2, z3, z4] => do
        let yyyy ← parse4 y1 y2 y3 y4
        let mo ← parse2 o1 o2
        let dd ← parse2 a1 a2
        let hh ← parse2 h1 h2
        let mi ← parse2 n1 n2
        let ss ← parse2 s1 s2
        let us ← parseFrac (rest.take (rest.length - 5))
        let off ← parseTzOffset zs z1 z2 z3 z4
        mkDatetime? yyyy mo dd hh mi ss us (some off)
      | _ => none
    else none
  | _ => none

/-- Errors a time helper can surface: the library `Error` with its message,
the ValueError of strptime or of the datetime constructor, and the
IndexError of indexing into a too-short string. -/
inductive TimeError
  | asn1Error (msg : String)
  | valueError
  | indexError
deriving DecidableEq

/-- A strptime outcome as the helper result: a parse failure propagates as
ValueError. -/
def liftParse : Option Datetime → Except TimeError Datetime
  | some d => .ok d
  | none => .error .valueError

/-- The library `Error` raised by `utc_time_to_datetime`. -/
def utcTimeErrMsg (s : String) : TimeError :=
  .asn1Error ("Expected an UTC time string, but got " ++ s ++ ".")

/-- `utc_time_to_datetime`: branch on a final `Z` (naive parse at lengths
11 and 13) or on lengths 15 and 17 with a trailing offset; every other
shape raises the library `Error`.  Indexing `string[-1]` of an empty
string raises IndexError. -/
def utc_time_to_datetime (s : String) : Except TimeError Datetime :=
  match s.data.getLast? with
  | none => .error .indexError
  | some c =>
    if c = 'Z' then
      if s.length = 11 then liftParse (strptime_yymmddHHMM ⟨s.data.take 10⟩)
      else if s.length = 13 then liftParse (strptime_yymmddHHMMSS ⟨s.data.take 12⟩)
      else .error (utcTimeErrMsg s)
    else if s.length = 15 then liftParse (strptime_yymmddHHMMz s)
    else if s.length = 17 then liftParse (strptime_yymmddHHMMSSz s)
    else .error (utcTimeErrMsg s)

/-- Digits of `n` zero-padded to width two (strftime `%y %m %d %H %M %S`). -/
def digitChar (n : Nat) : Char := Char.ofNat (48 + n)

def pad2 (n : Nat) : List Char := [digitChar (n / 10), digitChar (n % 10)]

def pad4 (n : Nat) : List Char := pad2 (n / 100) ++ pad2 (n % 100)

def pad6 (n : Nat) : List Char := pad2 (n / 10000) ++ pad4 (n % 10000)

/-- strftime `%z` of a fixed offset of `off` minutes. -/
def tzFormat (off : Int) : List Char :=
  (if off < 0 then '-' else '+') :: (pad2 (off.natAbs / 60) ++ pad2 (off.natAbs % 60))

/-- `utc_time_from_datetime`: format `%y%m%d%H%M`, append `%S` when the
second is positive, then `Z` for a naive datetime or `%z` for an aware
one. -/
def utc_time_from_datetime (d : Datetime) : String :=
  let base := pad2 (d.year % 100) ++ pad2 d.month ++ pad2 d.day ++
    pad2 d.hour ++ pad2 d.minute
  let base2 := if 0 < d.second then base ++ pad2 d.second else base
  match d.tz with
  | none => ⟨base2 ++ ['Z']⟩
  | some off => ⟨base2 ++ tzFormat off⟩

/-- `generalized_time_to_datetime`: a final `Z` parses naively (length 15
without, otherwise with a fraction) and is then replaced with the UTC
timezone; a sign at index -5 parses with a trailing offset; otherwise a
plain parse (length 14 without, otherwise with a fraction). -/
def generalized_time_to_datetime (s : String) : Except TimeError Datetime :=
  match s.data.getLast? with
  | none => .error .indexError
  | some c =>
    if c = 'Z' then
      match
        (if s.length = 15 then strptime_YmdHMS ⟨s.data.take 14⟩
         else strptime_YmdHMSf ⟨s.data.dropLast⟩) with
      | some d => .ok { d with tz := some 0 }
      | none => .error .valueError
    else if 5 ≤ s.length then
      match s.data.drop (s.length - 5) with
      | c5 :: _ =>
        if c5 = '-' ∨ c5 = '+' then
          if s.length = 19 then liftParse (strptime_YmdHMSz s)
          else liftParse (strptime_YmdHMSfz s)
        else
          if s.length = 14 then liftParse (strptime_YmdHMS s)
          else liftParse (strptime_YmdHMSf s)
      | [] => .error .indexError
    else .error .indexError

/-- `generalized_time_from_datetime`: format `%Y%m%d%H%M%S`, append `.%f`
when the microsecond is positive, then nothing for a naive datetime, `Z`
for UTC, or `%z` for any other fixed offset. -/
def generalized_time_from_datetime (d : Datetime) : String :=
  let base := pad4 d.year ++ pad2 d.month ++ pad2 d.day ++
    pad2 d.hour ++ pad2 d.minute ++ pad2 d.second
  let base2 := if 0 < d.microsecond then base ++ ('.' :: pad6 d.microsecond) else base
  match d.tz with
  | none => ⟨base2⟩
  | some off => if off = 0 then ⟨base2 ++ ['Z']⟩ else ⟨base2 ++ tzFormat off⟩

/-- The UTC time string shapes `utc_time_to_datetime` hands to strptime
rather than rejecting with the library `Error`: a final `Z` with length 11
or 13, or no final `Z` with length 15 or 17. -/
def utcAcceptedShape (s : String) : Prop :=
  (s.data.getLast? = some 'Z' ∧ (s.length = 11 ∨ s.length = 13)) ∨
  (s.data.getLast? ≠ some 'Z' ∧ (s.length = 15 ∨ s.length = 17))

/-- A concrete `ParsePipeline` instance over a one-bit dictionary type,
used to exhibit the pipeline theorems at a concrete input. -/
def demoParsePipeline : ParsePipeline Bool (Bool × String) where
  parse_files := fun _ => true
  pformat := fun b => cond b "T" "F"
  eval_expr := fun s => if s = "T" then some true else if s = "F" then some false else none
  compile_dict := fun d c => (d, c)
  eval_pformat := by intro d; cases d <;> rfl

/-- A concrete `PicklePipeline` instance over `Nat`, used to exhibit the
pipeline theorems at a concrete input. -/
def demoPicklePipeline : PicklePipeline Nat where
  compile_files := fun specs codec => specs.length + codec.length
  dumps := fun n => [n]
  loads := fun l => l.head?
  loads_dumps := by intro s; rfl

/-! ## Helper lemmas -/

lemma isPrefixOf_append_self {α : Type} [BEq α] [LawfulBEq α] (l m : List α) :
    l.isPrefixOf (l ++ m) = true := by
  induction l with
  | nil => simp [List.isPrefixOf]
  | cons a l ih => simp [List.isPrefixOf, ih]

lemma main_exit_code_eq_zero (o : Option PyExc) : main_exit_code o = 0 ↔ o = none := by
  cases o <;> simp [main_exit_code]

lemma convert_stdin_loop_eq_none (lines : List (Option PyExc)) :
    convert_stdin_loop lines = none ↔
      ∀ o ∈ lines, ∀ e, o = some e → caught_in_stdin_loop e = true := by
  induction lines with
  | nil => simp [convert_stdin_loop]
  | cons o rest ih =>
    cases o with
    | none => simp [convert_stdin_loop, ih]
    | some e =>
      by_cases hc : caught_in_stdin_loop e = true
      · simp [convert_stdin_loop, hc, ih]
      · simp [convert_stdin_loop, hc]

lemma liftParse_eq_asn1_iff (o : Option Datetime) (m : String) :
    liftParse o = .error (.asn1Error m) ↔ False := by
  cases o <;> simp [liftParse]

lemma liftParse_eq_index_iff (o : Option Datetime) :
    liftParse o = .error .indexError ↔ False := by
  cases o <;> simp [liftParse]

lemma liftParse_eq_ok_iff (o : Option Datetime) (d : Datetime) :
    liftParse o = .ok d ↔ o = some d := by
  cases o <;> simp [liftParse]

lemma mkDatetime?_eq_some {y mo dd hh mi ss us : Nat} {tz : Option Int} {d : Datetime} :
    mkDatetime? y mo dd hh mi ss us tz = some d ↔
      d = ⟨y, mo, dd, hh, mi, ss, us, tz⟩ ∧
        (⟨y, mo, dd, hh, mi, ss, us, tz⟩ : Datetime).Valid := by
  simp only [mkDatetime?]
  split_ifs with h
  · constructor
    · intro he
      cases he
      exact ⟨rfl, h⟩
    · rintro ⟨rfl, _⟩
      rfl
  · constructor
    · intro he
      exact he.elim
    · rintro ⟨rfl, hv⟩
      exact absurd hv h

lemma strptime_yymmddHHMM_tz {s : String} {d : Datetime}
    (h : strptime_yymmddHHMM s = some d) : d.tz = none := by
  unfold strptime_yymmddHHMM at h
  split at h
  · simp only [Option.bind_eq_bind, Option.bind_eq_some] at h
    obtain ⟨_, _, _, _, _, _, _, _, _, _, hmk⟩ := h
    rw [mkDatetime?_eq_some] at hmk
    rw [hmk.1]
  · exact Option.noConfusion h

lemma strptime_yymmddHHMMSS_tz {s : String} {d : Datetime}
    (h : strptime_yymmddHHMMSS s = some d) : d.tz = none := by
  unfold strptime_yymmddHHMMSS at h
  split at h
  · simp only [Option.bind_eq_bind, Option.bind_eq_some] at h
    obtain ⟨_, _, _, _, _, _, _, _, _, _, _, _, hmk⟩ := h
    rw [mkDatetime?_eq_some] at hmk
    rw [hmk.1]
  · exact Option.noConfusion h

lemma utc_z_branch (s : String) (hz : s.data.getLast? = some 'Z') :
    utc_time_to_datetime s =
      if s.length = 11 then liftParse (strptime_yymmddHHMM ⟨s.data.take 10⟩)
      else if s.length = 13 then liftParse (strptime_yymmddHHMMSS ⟨s.data.take 12⟩)
      else .error (utcTimeErrMsg s) := by
  simp [utc_time_to_datetime, hz]

lemma utc_nonz_branch (s : String) (c : Char) (hc : s.data.getLast? = some c)
    (hz : c ≠ 'Z') :
    utc_time_to_datetime s =
      if s.length = 15 then liftParse (strptime_yymmddHHMMz s)
      else if s.length = 17 then liftParse (strptime_yymmddHHMMSSz s)
      else .error (utcTimeErrMsg s) := by
  simp [utc_time_to_datetime, hc, hz]

lemma generalized_z_branch (s : String) (hz : s.data.getLast? = some 'Z') :
    generalized_time_to_datetime s =
      match
        (if s.length = 15 then strptime_YmdHMS ⟨s.data.take 14⟩
         else strptime_YmdHMSf ⟨s.data.dropLast⟩) with
      | some d => .ok { d with tz := some 0 }
      | none => .error .valueError := by
  simp [generalized_time_to_datetime, hz]

lemma digit?_digitChar (k : Nat) (hk : k ≤ 9) : digit? (digitChar k) = some k := by
  interval_cases k <;> decide

lemma parse2_pad2 (n : Nat) (h : n < 100) :
    parse2 (digitChar (n / 10)) (digitChar (n % 10)) = some n := by
  unfold parse2
  rw [digit?_digitChar (n / 10) (by omega), digit?_digitChar (n % 10) (by omega)]
  simp
  omega

lemma daysInMonth_le (y m : Nat) : daysInMonth y m ≤ 31 := by
  unfold daysInMonth
  split_ifs <;> omega

lemma pivotYY_mod (y : Nat) (h1 : 1969 ≤ y) (h2 : y ≤ 2068) :
    pivotYY (y % 100) = y := by
  unfold pivotYY
  split_ifs with h <;> omega

/-! ## Claims -/

/-- Claim C1, counterexample: the library codec set contains gser, but the
choices of `convert --input-codec` do not, so the input-codec choice set
does not equal the library codec set. -/
theorem cli_input_codec_missing_gser :
    "gser" ∈ library_codecs ∧ "gser" ∉ convert_input_codec_choices := by
  decide

/-- Claim C1 (amended): the output-selecting codec options
(`convert --output-codec`, `pickle --codec`, shell compile `-o`) accept
exactly the library codec set, while the input-selecting options
(`convert --input-codec`, shell compile `-i`) accept exactly the library
codec set without gser. -/
theorem cli_codec_choices :
    (∀ c : String, c ∈ convert_output_codec_choices ↔ c ∈ library_codecs) ∧
    (∀ c : String, c ∈ pickle_codec_choices ↔ c ∈ library_codecs) ∧
    (∀ c : String, c ∈ shell_compile_output_codec_choices ↔ c ∈ library_codecs) ∧
    (∀ c : String, c ∈ convert_input_codec_choices ↔
      (c ∈ library_codecs ∧ c ≠ "gser")) ∧
    (∀ c : String, c ∈ shell_compile_input_codec_choices ↔
      (c ∈ library_codecs ∧ c ≠ "gser")) := by
  refine ⟨?_, ?_, ?_, ?_, ?_⟩ <;> intro c
  · simp only [convert_output_codec_choices, library_codecs, List.mem_cons,
      List.not_mem_nil, or_false]
    tauto
  · simp only [pickle_codec_choices, library_codecs, List.mem_cons,
      List.not_mem_nil, or_false]
    tauto
  · simp only [shell_compile_output_codec_choices, library_codecs, List.mem_cons,
      List.not_mem_nil, or_false]
    tauto
  · simp only [convert_input_codec_choices, library_codecs, List.mem_cons,
      List.not_mem_nil, or_false]
    constructor
    · rintro (rfl | rfl | rfl | rfl | rfl | rfl) <;> exact (by decide)
    · rintro ⟨h7, hne⟩
      rcases h7 with rfl | rfl | rfl | rfl | rfl | rfl | rfl <;>
        first
          | exact absurd rfl hne
          | decide
  · simp only [shell_compile_input_codec_choices, library_codecs, List.mem_cons,
      List.not_mem_nil, or_false]
    constructor
    · rintro (rfl | rfl | rfl | rfl | rfl | rfl) <;> exact (by decide)
    · rintro ⟨h7, hne⟩
      rcases h7 with rfl | rfl | rfl | rfl | rfl | rfl | rfl <;>
        first
          | exact absurd rfl hne
          | decide

/-- Claim C2, counterexample: a convert invocation with hexstring `-`
during which a DecodeError (a core error) is raised on a stdin line
terminates with exit status 0. -/
theorem convert_stdin_decode_error_exit_zero :
    PyExc.isCore .decodeError = true ∧
    main_exit_code (do_convert_outcome none true [some PyExc.decodeError] none) = 0 := by
  decide

/-- Claim C2 (amended): a convert invocation exits with status 0 exactly
when no exception escapes: the specification-loading step raised nothing
and, in `-` mode, every stdin line raised at most a TypeError or a
DecodeError (which the loop catches and prints), or, in single-hexstring
mode, the conversion raised nothing.  Hence every core error outside the
stdin loop, and every core error other than DecodeError inside it, yields
a nonzero exit status, while a DecodeError on a stdin line does not. -/
theorem convert_exit_code_zero_iff (co : Option PyExc) (dash : Bool)
    (lines : List (Option PyExc)) (single : Option PyExc) :
    main_exit_code (do_convert_outcome co dash lines single) = 0 ↔
      co = none ∧
        ((dash = true →
            ∀ o ∈ lines, ∀ e, o = some e → caught_in_stdin_loop e = true) ∧
         (dash = false → single = none)) := by
  cases co with
  | some e => simp [do_convert_outcome, main_exit_code]
  | none =>
    cases dash with
    | false =>
      simp [do_convert_outcome, main_exit_code_eq_zero]
    | true =>
      simp [do_convert_outcome, main_exit_code_eq_zero, convert_stdin_loop_eq_none]

/-- Claim C3, counterexample: with the file list `["a.asn", "b.py"]`
exactly one name ends in `.py`, yet `_compile_files` imports the first
list element `a.asn`, which is not the `.py` file. -/
theorem compile_files_py_imports_first_file :
    compile_files_dispatch ["a.asn", "b.py"] = .ok (.importPy "a.asn") ∧
    pyFileB "a.asn" = false := by
  decide

/-- Claim C3 (amended): `_compile_files` accepts three source forms: when
any file name ends in `.py`, exactly one such name is required (otherwise
an exception is raised) and the first file of the list is imported and its
SPECIFICATION dictionary compiled for both codecs; otherwise, when any
file name ends in `.pkl`, exactly two such names are required (otherwise
an exception is raised) and the first two files of the list are unpickled
as input and output specs; otherwise all files are parsed as ASN.1 module
text and compiled for both codecs. -/
theorem compile_files_dispatch_cases (specs : List String) :
    (2 ≤ specs.countP pyFileB →
      compile_files_dispatch specs =
        .error ("Expected one .py-file, but got " ++
          toString (specs.countP pyFileB) ++ ".")) ∧
    (∀ f rest, specs = f :: rest → specs.countP pyFileB = 1 →
      compile_files_dispatch specs = .ok (.importPy f)) ∧
    (specs.countP pyFileB = 0 → 0 < specs.countP pklFileB →
      specs.countP pklFileB ≠ 2 →
      compile_files_dispatch specs =
        .error ("Expected two .pkl-files, but got " ++
          toString (specs.countP pklFileB) ++ ".")) ∧
    (∀ f1 f2 rest, specs = f1 :: f2 :: rest → specs.countP pyFileB = 0 →
      specs.countP pklFileB = 2 →
      compile_files_dispatch specs = .ok (.loadPkl f1 f2)) ∧
    (specs.countP pyFileB = 0 → specs.countP pklFileB = 0 →
      compile_files_dispatch specs = .ok (.parseAsn specs)) := by
  refine ⟨?_, ?_, ?_, ?_, ?_⟩
  · intro h
    have h0 : 0 < specs.countP pyFileB := by omega
    have h1 : specs.countP pyFileB ≠ 1 := by omega
    simp [compile_files_dispatch, h0, h1]
  · intro f rest hs h1
    subst hs
    simp [compile_files_dispatch, h1]
  · intro hpy h0 h2
    simp [compile_files_dispatch, hpy, h0, h2]
  · intro f1 f2 rest hs hpy hpkl
    subst hs
    simp [compile_files_dispatch, hpy, hpkl]
  · intro hpy hpkl
    simp [compile_files_dispatch, hpy, hpkl]

/-- Claim C3, witness for the amended theorem: the documented single-file
and two-file usages dispatch to the import and unpickle actions. -/
theorem compile_files_dispatch_cases_witness :
    compile_files_dispatch ["b.py"] = .ok (.importPy "b.py") ∧
    compile_files_dispatch ["a.pkl", "b.pkl"] = .ok (.loadPkl "a.pkl" "b.pkl") :=
  ⟨(compile_files_dispatch_cases ["b.py"]).2.1 "b.py" [] rfl (by decide),
   (compile_files_dispatch_cases ["a.pkl", "b.pkl"]).2.2.2.1 "a.pkl" "b.pkl" []
     rfl (by decide) (by decide)⟩

/-- Claim C4: the four time conversion helpers are deterministic pure
functions: two calls to the same helper with equal arguments return equal
results (including equal error outcomes); the embedding is functional, so
no call reads or writes mutable state. -/
theorem time_helpers_deterministic (s t : String) (d e : Datetime)
    (hst : s = t) (hde : d = e) :
    utc_time_to_datetime s = utc_time_to_datetime t ∧
    utc_time_from_datetime d = utc_time_from_datetime e ∧
    generalized_time_to_datetime s = generalized_time_to_datetime t ∧
    generalized_time_from_datetime d = generalized_time_from_datetime e := by
  subst hst
  subst hde
  exact ⟨rfl, rfl, rfl, rfl⟩

/-- Claim C4, witness at a concrete time string and datetime. -/
theorem time_helpers_deterministic_witness :
    utc_time_to_datetime "9912312359Z" = utc_time_to_datetime "9912312359Z" ∧
    utc_time_from_datetime ⟨1999, 12, 31, 23, 59, 0, 0, none⟩ =
      utc_time_from_datetime ⟨1999, 12, 31, 23, 59, 0, 0, none⟩ ∧
    generalized_time_to_datetime "9912312359Z" =
      generalized_time_to_datetime "9912312359Z" ∧
    generalized_time_from_datetime ⟨1999, 12, 31, 23, 59, 0, 0, none⟩ =
      generalized_time_from_datetime ⟨1999, 12, 31, 23, 59, 0, 0, none⟩ :=
  time_helpers_deterministic "9912312359Z" "9912312359Z"
    ⟨1999, 12, 31, 23, 59, 0, 0, none⟩ ⟨1999, 12, 31, 23, 59, 0, 0, none⟩ rfl rfl

/-- Claim C5: the front-end accepts exactly the subcommands convert,
shell, parse and pickle; a subcommand is required (an invocation without
one is rejected), and any other name is rejected by argument parsing. -/
theorem main_subcommands_exactly_four :
    parse_subcommand none =
      .error "the following arguments are required: subcommand" ∧
    (∀ n : String, (∃ c, parse_subcommand (some n) = .ok c) ↔
      n ∈ subcommand_names) ∧
    (∀ n : String, n ∉ subcommand_names →
      ∃ msg, parse_subcommand (some n) = .error msg) := by
  refine ⟨rfl, ?_, ?_⟩
  · intro n
    simp only [parse_subcommand]
    split_ifs with h1 h2 h3 h4
    · subst h1
      exact iff_of_true ⟨_, rfl⟩ (by decide)
    · subst h2
      exact iff_of_true ⟨_, rfl⟩ (by decide)
    · subst h3
      exact iff_of_true ⟨_, rfl⟩ (by decide)
    · subst h4
      exact iff_of_true ⟨_, rfl⟩ (by decide)
    · constructor
      · rintro ⟨c, hc⟩
        exact hc.elim
      · intro hmem
        simp only [subcommand_names, List.mem_cons, List.not_mem_nil, or_false] at hmem
        rcases hmem with rfl | rfl | rfl | rfl
        · exact absurd rfl h1
        · exact absurd rfl h2
        · exact absurd rfl h3
        · exact absurd rfl h4
  · intro n hn
    simp only [parse_subcommand]
    split_ifs with h1 h2 h3 h4
    · exact absurd (h1 ▸ (by decide : ("convert" : String) ∈ subcommand_names)) hn
    · exact absurd (h2 ▸ (by decide : ("shell" : String) ∈ subcommand_names)) hn
    · exact absurd (h3 ▸ (by decide : ("parse" : String) ∈ subcommand_names)) hn
    · exact absurd (h4 ▸ (by decide : ("pickle" : String) ∈ subcommand_names)) hn
    · exact ⟨_, rfl⟩

/-- Claim C6: the parse subcommand writes `SPECIFICATION = ` followed by
the pretty-printed dictionary returned by parse_files, and the convert
subcommand `.py` path, importing that file, compiles the same pre-parsed
module map with compile_dict once for each codec. -/
theorem parse_output_consumable {D S : Type} (P : ParsePipeline D S)
    (files : List String) (input_codec output_codec : String) :
    do_parse_output P files =
      "SPECIFICATION = " ++ P.pformat (P.parse_files files) ∧
    compile_py_content P (do_parse_output P files) input_codec output_codec =
      some (P.compile_dict (P.parse_files files) input_codec,
            P.compile_dict (P.parse_files files) output_codec) := by
  refine ⟨rfl, ?_⟩
  have hdata : (do_parse_output P files).data =
      "SPECIFICATION = ".data ++ (P.pformat (P.parse_files files)).data := rfl
  unfold compile_py_content import_SPECIFICATION
  rw [hdata, isPrefixOf_append_self]
  have hlen : ("SPECIFICATION = ".data.length : Nat) = 16 := by decide
  simp only [if_true]
  rw [show (16 : Nat) = "SPECIFICATION = ".data.length from hlen.symm,
    List.drop_left]
  have : (⟨(P.pformat (P.parse_files files)).data⟩ : String) =
      P.pformat (P.parse_files files) := rfl
  rw [this, P.eval_pformat]
  rfl

/-- Claim C6, witness at a concrete pipeline and file list. -/
theorem parse_output_consumable_witness :
    do_parse_output demoParsePipeline ["a.asn"] = "SPECIFICATION = T" ∧
    compile_py_content demoParsePipeline (do_parse_output demoParsePipeline ["a.asn"])
      "ber" "jer" = some ((true, "ber"), (true, "jer")) := by
  have h := parse_output_consumable demoParsePipeline ["a.asn"] "ber" "jer"
  exact ⟨h.1.trans (by decide), h.2⟩

/-- Claim C7: the pickle subcommand compiles the given files for exactly
the one codec given by `--codec` (default ber) and serializes that single
compiled spec as one binary blob, which the convert subcommand `.pkl` path
deserializes back into the same spec. -/
theorem pickle_single_codec_round_trip {S : Type} (P : PicklePipeline S)
    (specs : List String) (codec : String) :
    do_pickle P specs codec = P.dumps (P.compile_files specs codec) ∧
    convert_load_pkl P (do_pickle P specs codec) =
      some (P.compile_files specs codec) ∧
    pickle_codec_default = "ber" :=
  ⟨rfl, P.loads_dumps _, rfl⟩

/-- Claim C7, witness at a concrete pipeline, file list and codec. -/
theorem pickle_single_codec_round_trip_witness :
    convert_load_pkl demoPicklePipeline (do_pickle demoPicklePipeline ["a.asn"] "ber") =
      some 4 ∧
    pickle_codec_default = "ber" := by
  have h := pickle_single_codec_round_trip demoPicklePipeline ["a.asn"] "ber"
  exact ⟨h.2.1, h.2.2⟩

/-- Claim C8: for a non-empty string, `utc_time_to_datetime` raises the
library `Error` exactly when the string has none of the accepted shapes
(final `Z` with length 11 or 13; no final `Z` with length 15 or 17); an
accepted shape is parsed, returning the datetime or propagating a parsing
ValueError, never the library `Error` (and never an IndexError). -/
theorem utc_time_to_datetime_error_iff (s : String) (h : s ≠ "") :
    ((∃ m, utc_time_to_datetime s = .error (.asn1Error m)) ↔ ¬ utcAcceptedShape s) ∧
    utc_time_to_datetime s ≠ .error .indexError := by
  have hd : s.data ≠ [] := by
    intro hnil
    apply h
    cases s
    simp only at hnil
    simp [hnil]
  obtain ⟨c, hc⟩ : ∃ c, s.data.getLast? = some c := by
    cases hgl : s.data.getLast? with
    | none => exact absurd (List.getLast?_eq_none_iff.mp hgl) hd
    | some c => exact ⟨c, rfl⟩
  unfold utcAcceptedShape
  rw [hc]
  by_cases hz : c = 'Z'
  · subst hz
    rw [utc_z_branch s hc]
    by_cases h11 : s.length = 11
    · rw [if_pos h11]
      simp [h11, liftParse_eq_asn1_iff, liftParse_eq_index_iff]
    · by_cases h13 : s.length = 13
      · rw [if_neg h11, if_pos h13]
        simp [h11, h13, liftParse_eq_asn1_iff, liftParse_eq_index_iff]
      · rw [if_neg h11, if_neg h13]
        simp [h11, h13, utcTimeErrMsg]
  · rw [utc_nonz_branch s c hc hz]
    by_cases h15 : s.length = 15
    · rw [if_pos h15]
      simp [hz, h15, liftParse_eq_asn1_iff, liftParse_eq_index_iff]
    · by_cases h17 : s.length = 17
      · rw [if_neg h15, if_pos h17]
        simp [hz, h15, h17, liftParse_eq_asn1_iff, liftParse_eq_index_iff]
      · rw [if_neg h15, if_neg h17]
        simp [hz, h15, h17, utcTimeErrMsg]

/-- Claim C8, witness at a length-11 string with a final `Z`. -/
theorem utc_time_to_datetime_error_iff_witness :
    ((∃ m, utc_time_to_datetime "9912312359Z" = .error (.asn1Error m)) ↔
      ¬ utcAcceptedShape "9912312359Z") ∧
    utc_time_to_datetime "9912312359Z" ≠ .error .indexError :=
  utc_time_to_datetime_error_iff "9912312359Z" (by decide)

/-- Claim C10: on accepted strings with a final `Z`, `utc_time_to_datetime`
returns a timezone-naive datetime, while `generalized_time_to_datetime`
returns a timezone-aware datetime in the zero-offset (UTC) timezone. -/
theorem z_suffix_tz_handling :
    (∀ (s : String) (d : Datetime), s.data.getLast? = some 'Z' →
      utc_time_to_datetime s = .ok d → d.tz = none) ∧
    (∀ (s : String) (d : Datetime), s.data.getLast? = some 'Z' →
      generalized_time_to_datetime s = .ok d → d.tz = some 0) := by
  constructor
  · intro s d hz hok
    rw [utc_z_branch s hz] at hok
    by_cases h11 : s.length = 11
    · rw [if_pos h11, liftParse_eq_ok_iff] at hok
      exact strptime_yymmddHHMM_tz hok
    · by_cases h13 : s.length = 13
      · rw [if_neg h11, if_pos h13, liftParse_eq_ok_iff] at hok
        exact strptime_yymmddHHMMSS_tz hok
      · rw [if_neg h11, if_neg h13] at hok
        exact Except.noConfusion hok
  · intro s d hz hok
    rw [generalized_z_branch s hz] at hok
    cases hmatch : (if s.length = 15 then strptime_YmdHMS ⟨s.data.take 14⟩
        else strptime_YmdHMSf ⟨s.data.dropLast⟩) with
    | none =>
      rw [hmatch] at hok
      exact Except.noConfusion hok
    | some e =>
      rw [hmatch] at hok
      cases hok
      rfl

/-- Claim C10, witness: a UTC time string and a generalized time string
with final `Z`. -/
theorem z_suffix_tz_handling_witness :
    (Datetime.mk 1999 12 31 23 59 0 0 none).tz = none ∧
    (Datetime.mk 1999 12 31 23 59 59 0 (some 0)).tz = some 0 :=
  ⟨z_suffix_tz_handling.1 "9912312359Z" ⟨1999, 12, 31, 23, 59, 0, 0, none⟩
      (by decide) (by decide),
   z_suffix_tz_handling.2 "19991231235959Z" ⟨1999, 12, 31, 23, 59, 59, 0, some 0⟩
      (by decide) (by decide)⟩

/-- Claim C9: round-trip of the UTC time helpers: for every
timezone-naive valid datetime with zero microsecond and year between 1969
and 2068, parsing the formatted UTC time string returns the original
datetime, with or without a seconds field. -/
theorem utc_time_round_trip (d : Datetime) (hv : d.Valid) (htz : d.tz = none)
    (hus : d.microsecond = 0) (hy1 : 1969 ≤ d.year) (hy2 : d.year ≤ 2068) :
    utc_time_to_datetime (utc_time_from_datetime d) = .ok d := by
  obtain ⟨y, mo, dd, hh, mi, se, us, tz⟩ := d
  have h1 : 1 ≤ y := hv.1
  have h2 : y ≤ 9999 := hv.2.1
  have h3 : 1 ≤ mo := hv.2.2.1
  have h4 : mo ≤ 12 := hv.2.2.2.1
  have h5 : 1 ≤ dd := hv.2.2.2.2.1
  have h6 : dd ≤ daysInMonth y mo := hv.2.2.2.2.2.1
  have h7 : hh ≤ 23 := hv.2.2.2.2.2.2.1
  have h8 : mi ≤ 59 := hv.2.2.2.2.2.2.2.1
  have h9 : se ≤ 59 := hv.2.2.2.2.2.2.2.2.1
  have hdm := daysInMonth_le y mo
  have htz' : tz = none := htz
  have hus' : us = 0 := hus
  have hy1' : 1969 ≤ y := hy1
  have hy2' : y ≤ 2068 := hy2
  subst htz'
  subst hus'
  by_cases hse : 0 < se
  · set L : List Char :=
      pad2 (y % 100) ++ pad2 mo ++ pad2 dd ++ pad2 hh ++ pad2 mi ++ pad2 se
      with hLdef
    have hform : utc_time_from_datetime ⟨y, mo, dd, hh, mi, se, 0, none⟩ =
        ⟨L ++ ['Z']⟩ := by
      simp [utc_time_from_datetime, hse, hLdef]
    rw [hform]
    have hlast : (⟨L ++ ['Z']⟩ : String).data.getLast? = some 'Z' :=
      List.getLast?_concat L
    rw [utc_z_branch _ hlast]
    have hlen : (⟨L ++ ['Z']⟩ : String).length = 13 := by
      show (L ++ ['Z']).length = 13
      simp [hLdef, pad2]
    rw [if_neg (by rw [hlen]; decide), if_pos hlen]
    have htake : (⟨L ++ ['Z']⟩ : String).data.take 12 = L := by
      show (L ++ ['Z']).take 12 = L
      exact List.take_left' (by simp [hLdef, pad2])
    rw [htake]
    have hstr : strptime_yymmddHHMMSS ⟨L⟩ =
        mkDatetime? (pivotYY (y % 100)) mo dd hh mi se 0 none := by
      simp only [hLdef, pad2, List.cons_append, List.nil_append]
      simp only [strptime_yymmddHHMMSS]
      rw [parse2_pad2 (y % 100) (Nat.mod_lt y (by norm_num)),
        parse2_pad2 mo (by omega), parse2_pad2 dd (by omega),
        parse2_pad2 hh (by omega), parse2_pad2 mi (by omega),
        parse2_pad2 se (by omega)]
      simp
    rw [hstr, pivotYY_mod y hy1' hy2']
    have hmk : mkDatetime? y mo dd hh mi se 0 none =
        some ⟨y, mo, dd, hh, mi, se, 0, none⟩ :=
      mkDatetime?_eq_some.mpr
        ⟨rfl, ⟨h1, h2, h3, h4, h5, h6, h7, h8, h9, by norm_num⟩⟩
    rw [hmk]
    rfl
  · have hse0 : se = 0 := by omega
    subst hse0
    set L : List Char :=
      pad2 (y % 100) ++ pad2 mo ++ pad2 dd ++ pad2 hh ++ pad2 mi
      with hLdef
    have hform : utc_time_from_datetime ⟨y, mo, dd, hh, mi, 0, 0, none⟩ =
        ⟨L ++ ['Z']⟩ := by
      simp [utc_time_from_datetime, hLdef]
    rw [hform]
    have hlast : (⟨L ++ ['Z']⟩ : String).data.getLast? = some 'Z' :=
      List.getLast?_concat L
    rw [utc_z_branch _ hlast]
    have hlen : (⟨L ++ ['Z']⟩ : String).length = 11 := by
      show (L ++ ['Z']).length = 11
      simp [hLdef, pad2]
    rw [if_pos hlen]
    have htake : (⟨L ++ ['Z']⟩ : String).data.take 10 = L := by
      show (L ++ ['Z']).take 10 = L
      exact List.take_left' (by simp [hLdef, pad2])
    rw [htake]
    have hstr : strptime_yymmddHHMM ⟨L⟩ =
        mkDatetime? (pivotYY (y % 100)) mo dd hh mi 0 0 none := by
      simp only [hLdef, pad2, List.cons_append, List.nil_append]
      simp only [strptime_yymmddHHMM]
      rw [parse2_pad2 (y % 100) (Nat.mod_lt y (by norm_num)),
        parse2_pad2 mo (by omega), parse2_pad2 dd (by omega),
        parse2_pad2 hh (by omega), parse2_pad2 mi (by omega)]
      simp
    rw [hstr, pivotYY_mod y hy1' hy2']
    have hmk : mkDatetime? y mo dd hh mi 0 0 none =
        some ⟨y, mo, dd, hh, mi, 0, 0, none⟩ :=
      mkDatetime?_eq_some.mpr
        ⟨rfl, ⟨h1, h2, h3, h4, h5, h6, h7, h8, by norm_num, by norm_num⟩⟩
    rw [hmk]
    rfl

/-- Claim C9, witness: the round trip at a concrete datetime with seconds
and at one without. -/
theorem utc_time_round_trip_witness :
    utc_time_to_datetime
        (utc_time_from_datetime ⟨1999, 12, 31, 23, 59, 59, 0, none⟩) =
      .ok ⟨1999, 12, 31, 23, 59, 59, 0, none⟩ ∧
    utc_time_to_datetime
        (utc_time_from_datetime ⟨2068, 1, 2, 3, 4, 0, 0, none⟩) =
      .ok ⟨2068, 1, 2, 3, 4, 0, 0, none⟩ :=
  ⟨utc_time_round_trip ⟨1999, 12, 31, 23, 59, 59, 0, none⟩ (by decide) rfl rfl
      (by decide) (by decide),
   utc_time_round_trip ⟨2068, 1, 2, 3, 4, 0, 0, none⟩ (by decide) rfl rfl
      (by decide) (by decide)⟩

end Asn1tools
